import Mathlib

/-!
Shallow embedding of the quota-enforcement engine of this repository:
the rate limiter (`RateLimiter.check_rate_limit`, `get_rate_limiter` in
`api/src/middleware/rate_limiter.py`) and the store-connection manager
(`RedisManager.get_client` in `api/src/core/redis_manager.py`).

The Redis counter store is modelled as an association list from string
keys to integer counter values plus a list of expiry settings.  A call
to the limiter is a pure function of the policy environment, a failure
schedule (one boolean per attempted store operation, `true` meaning the
operation raises, modelling the non-determinism of store I/O errors),
the pre-state and the request arguments; it yields the decision, the
post-state, the trace of attempted store operations and the log entries.
-/

/-- A store operation attempted by the limiter during one check. -/
inductive StoreOp where
  | incr (key : String)
  | incrby (key : String) (amount : Int)
  | expire (key : String) (seconds : Nat)
  deriving DecidableEq, Repr

/-- The `detail` payload of the HTTPException raised on a denial,
with the three structured fields used by the source. -/
structure HTTPDetail where
  error : String
  message : String
  type : String
  deriving DecidableEq, Repr

/-- Outcome of `check_rate_limit`: a normal boolean return, or a raised
`HTTPException` with a status code and a detail payload.  Non-HTTP store
exceptions never escape the function (they are absorbed by the broad
`except` clause), so they need no constructor here. -/
inductive CheckResult where
  | ok (b : Bool)
  | httpErr (status : Nat) (detail : HTTPDetail)
  deriving DecidableEq, Repr

/-- The Redis counter store: counters as key/value pairs (a key is absent
iff it is not in the list; `INCR`/`INCRBY` create absent keys at 0), and
the history of `EXPIRE` calls. -/
structure RedisState where
  counters : List (String × Int)
  expiries : List (String × Nat)
  deriving DecidableEq, Repr

/-- The empty store: no keys exist. -/
def emptyState : RedisState := ⟨[], []⟩

/-- Value of a counter, defaulting to 0 for an absent key (the base from
which Redis `INCR`/`INCRBY` create a key). -/
def lookupCounter (cs : List (String × Int)) (k : String) : Int :=
  match cs with
  | [] => 0
  | (k', v) :: rest => if k' = k then v else lookupCounter rest k

/-- Whether a counter key exists in the store. -/
def hasKey (cs : List (String × Int)) (k : String) : Bool :=
  match cs with
  | [] => false
  | (k', _) :: rest => k' = k || hasKey rest k

/-- Store a counter value, replacing an existing binding for the key. -/
def setCounter (cs : List (String × Int)) (k : String) (v : Int) :
    List (String × Int) :=
  match cs with
  | [] => [(k, v)]
  | (k', v') :: rest =>
    if k' = k then (k, v) :: rest else (k', v') :: setCounter rest k v

/-- Effect of Redis `INCRBY key amount` (creates the key at 0 first). -/
def applyIncrBy (st : RedisState) (k : String) (a : Int) : RedisState :=
  { st with counters := setCounter st.counters k (lookupCounter st.counters k + a) }

/-- Effect of Redis `INCR key`. -/
def applyIncr (st : RedisState) (k : String) : RedisState :=
  applyIncrBy st k 1

/-- Effect of Redis `EXPIRE key seconds` (recorded; counters untouched). -/
def applyExpire (st : RedisState) (k : String) (seconds : Nat) : RedisState :=
  { st with expiries := (k, seconds) :: st.expiries }

/-- The policy environment of a `RateLimiter`: the settings read in
`RateLimiter.__init__` plus whether `self.redis` is a live client
(`redisAvailable = false` models `self.redis is None`) and the calendar
date string produced by `datetime.now().strftime` during the call. -/
structure CheckEnv where
  enabled : Bool
  redisAvailable : Bool
  requests_per_minute : Nat
  chars_per_day : Nat
  whitelist : List String
  today : String
  deriving DecidableEq, Repr

/-- Python `str.strip()` whitespace predicate (ASCII whitespace). -/
def isPySpace (c : Char) : Bool :=
  c = ' ' || c = '\t' || c = '\n' || c = '\r' || c = Char.ofNat 11 || c = Char.ofNat 12

/-- Python `str.strip()`: drop leading and trailing whitespace. -/
def pyStrip (s : String) : String :=
  String.mk (((s.data.dropWhile isPySpace).reverse.dropWhile isPySpace).reverse)

/-- The whitelist built in `RateLimiter.__init__`:
`set(ip.strip() for ip in settings.rate_limit_whitelist if ip.strip())`.
Python's set is modelled by a list used only through membership. -/
def mkWhitelist (raw : List String) : List String :=
  (raw.filter (fun ip => pyStrip ip != "")).map pyStrip

/-- `RateLimiter.is_whitelisted`: exact membership of the untouched ip. -/
def is_whitelisted (wl : List String) (ip : String) : Bool :=
  wl.contains ip

/-- `client_ip = request.client.host` followed by the falsy-string check
`if not client_ip: client_ip = "unknown"`. -/
def effectiveClientIp (host : String) : String :=
  if host = "" then "unknown" else host

/-- The per-minute request counter key `rate_limit:req:{ip}:minute`. -/
def minuteKey (ip : String) : String :=
  "rate_limit:req:" ++ ip ++ ":minute"

/-- The per-day character counter key `rate_limit:chars:{ip}:{today}`. -/
def dayKey (ip today : String) : String :=
  "rate_limit:chars:" ++ ip ++ ":" ++ today

/-- Detail of the denial raised by the minute check. -/
def minuteDenyDetail : HTTPDetail :=
  ⟨"rate_limit_exceeded", "请求过于频繁，请稍后再试", "rate_limit_error"⟩

/-- Detail of the denial raised by the day check. -/
def dayDenyDetail : HTTPDetail :=
  ⟨"rate_limit_exceeded", "今日额度已用完", "rate_limit_error"⟩

/-- Log tag of `logger.warning("Redis not available, ...")`. -/
def redisUnavailableLog : String := "Redis not available, rate limiting disabled"

/-- Log tag of `logger.error(f"Redis error in rate limiting: ...")`. -/
def redisErrorLog : String := "Redis error in rate limiting"

/-- Log tag of the minute-limit-exceeded warning. -/
def minuteWarnLog : String := "exceeded minute request limit"

/-- Log tag of the daily-limit-exceeded warning. -/
def dayWarnLog : String := "exceeded daily character limit"

/-- Everything observable about one call to `check_rate_limit`. -/
structure CheckOutcome where
  result : CheckResult
  state : RedisState
  ops : List StoreOp
  logs : List String
  deriving DecidableEq, Repr

/-- Threshold comparison and raise of the day check
(`if day_count > self.chars_per_day: raise HTTPException(429, ...)`,
otherwise `return True`). -/
def dayVerdict (env : CheckEnv) (st : RedisState) (ops : List StoreOp)
    (day_count : Int) : CheckOutcome :=
  if day_count > (env.chars_per_day : Int) then
    ⟨CheckResult.httpErr 429 dayDenyDetail, st, ops, [dayWarnLog]⟩
  else
    ⟨CheckResult.ok true, st, ops, []⟩

/-- The day check after `INCRBY` succeeded: `st1` is the state after the
add, the returned `day_count` is read from it; on first write
(`day_count == text_length`) attempt `EXPIRE` for 25 hours. -/
def dayStep (env : CheckEnv) (sched : List Bool) (st1 : RedisState)
    (ops : List StoreOp) (ip : String) (text_length : Nat) : CheckOutcome :=
  if lookupCounter st1.counters (dayKey ip env.today) = (text_length : Int) then
    if sched.headD false then
      ⟨CheckResult.ok true, st1,
        ops ++ [StoreOp.expire (dayKey ip env.today) (25 * 3600)], [redisErrorLog]⟩
    else
      dayVerdict env (applyExpire st1 (dayKey ip env.today) (25 * 3600))
        (ops ++ [StoreOp.expire (dayKey ip env.today) (25 * 3600)])
        (lookupCounter st1.counters (dayKey ip env.today))
  else
    dayVerdict env st1 ops (lookupCounter st1.counters (dayKey ip env.today))

/-- The day check: attempt `INCRBY day_key text_length`; a raise here is
absorbed into `return True` plus an error log. -/
def dayPhase (env : CheckEnv) (sched : List Bool) (st : RedisState)
    (ops : List StoreOp) (ip : String) (text_length : Nat) : CheckOutcome :=
  if sched.headD false then
    ⟨CheckResult.ok true, st,
      ops ++ [StoreOp.incrby (dayKey ip env.today) (text_length : Int)], [redisErrorLog]⟩
  else
    dayStep env sched.tail
      (applyIncrBy st (dayKey ip env.today) (text_length : Int))
      (ops ++ [StoreOp.incrby (dayKey ip env.today) (text_length : Int)])
      ip text_length

/-- Threshold comparison and raise of the minute check
(`if minute_count > self.requests_per_minute: raise ...`), else fall
through to the day check. -/
def minuteVerdict (env : CheckEnv) (sched : List Bool) (st : RedisState)
    (ops : List StoreOp) (ip : String) (minute_count : Int)
    (text_length : Nat) : CheckOutcome :=
  if minute_count > (env.requests_per_minute : Int) then
    ⟨CheckResult.httpErr 429 minuteDenyDetail, st, ops, [minuteWarnLog]⟩
  else
    dayPhase env sched st ops ip text_length

/-- The minute check after `INCR` succeeded: `st1` is the state after the
increment; on first hit (`minute_count == 1`) attempt `EXPIRE` for 60s. -/
def minuteStep (env : CheckEnv) (sched : List Bool) (st1 : RedisState)
    (ip : String) (text_length : Nat) : CheckOutcome :=
  if lookupCounter st1.counters (minuteKey ip) = 1 then
    if sched.headD false then
      ⟨CheckResult.ok true, st1,
        [StoreOp.incr (minuteKey ip), StoreOp.expire (minuteKey ip) 60],
        [redisErrorLog]⟩
    else
      minuteVerdict env sched.tail (applyExpire st1 (minuteKey ip) 60)
        [StoreOp.incr (minuteKey ip), StoreOp.expire (minuteKey ip) 60]
        ip (lookupCounter st1.counters (minuteKey ip)) text_length
  else
    minuteVerdict env sched st1 [StoreOp.incr (minuteKey ip)] ip
      (lookupCounter st1.counters (minuteKey ip)) text_length

/-- `RateLimiter.check_rate_limit(request, text_length)`.  In order:
disabled short-circuit, `self.redis is None` fail-open, client-ip
extraction, whitelist bypass, then the try-block of minute and day
checks, each store operation consuming one entry of the failure
schedule (`true` = the awaited call raises, absorbed into `return True`
with an error log by the broad `except`). -/
def check_rate_limit (env : CheckEnv) (sched : List Bool) (st : RedisState)
    (host : String) (text_length : Nat) : CheckOutcome :=
  if env.enabled = false then
    ⟨CheckResult.ok true, st, [], []⟩
  else if env.redisAvailable = false then
    ⟨CheckResult.ok true, st, [], [redisUnavailableLog]⟩
  else if is_whitelisted env.whitelist (effectiveClientIp host) then
    ⟨CheckResult.ok true, st, [], []⟩
  else if sched.headD false then
    ⟨CheckResult.ok true, st,
      [StoreOp.incr (minuteKey (effectiveClientIp host))], [redisErrorLog]⟩
  else
    minuteStep env sched.tail
      (applyIncr st (minuteKey (effectiveClientIp host)))
      (effectiveClientIp host) text_length

/-- A sequence of failure-free calls to `check_rate_limit` for the same
client, threading the store state; returns the decisions in order and
the final state. -/
def runChecks (env : CheckEnv) (st : RedisState) (host : String) :
    List Nat → List CheckResult × RedisState
  | [] => ([], st)
  | u :: rest =>
    ((check_rate_limit env [] st host u).result ::
        (runChecks env (check_rate_limit env [] st host u).state host rest).1,
      (runChecks env (check_rate_limit env [] st host u).state host rest).2)

/-- Environment of the connection manager: the outcome of each successive
connection-construction attempt (`true` = `redis.Redis(...)` plus the
`ping()` probe succeed, `false` = some step raises). -/
structure ConnEnv where
  attemptResults : List Bool
  deriving DecidableEq, Repr

/-- State of the `RedisManager` singleton: the cached `_redis_client`
(a handle identified by the index of the attempt that built it), the
number of construction attempts made so far, and instrumentation
counting constructions and liveness probes. -/
structure RMState where
  client : Option Nat
  attempts : Nat
  constructions : Nat
  pings : Nat
  deriving DecidableEq, Repr

/-- `RedisManager.get_client`: if `_redis_client is None`, construct a
client and probe it; on failure reset `_redis_client` to `None`; either
way return `_redis_client`.  If a client is already cached it is
returned unchanged, with no construction and no probe. -/
def get_client (env : ConnEnv) (s : RMState) : Option Nat × RMState :=
  match s.client with
  | some h => (some h, s)
  | none =>
    if env.attemptResults.getD s.attempts false then
      (some s.attempts,
        { client := some s.attempts, attempts := s.attempts + 1,
          constructions := s.constructions + 1, pings := s.pings + 1 })
    else
      (none,
        { client := none, attempts := s.attempts + 1,
          constructions := s.constructions + 1, pings := s.pings + 1 })

/-- `RedisManager.close`: drop the cached client if present. -/
def closeClient (s : RMState) : RMState :=
  { s with client := none }

/-- Process-wide state seen by `get_rate_limiter`: the connection
manager's state and the module-global `_rate_limiter` (represented by
its `redis` field, the only per-instance datum that varies). -/
structure AppState where
  rm : RMState
  rateLimiter : Option (Option Nat)
  deriving DecidableEq, Repr

/-- `get_rate_limiter`: build the global `RateLimiter` on first use from
`await get_redis()`; afterwards return the cached instance without
touching the connection manager. -/
def get_rate_limiter (env : ConnEnv) (s : AppState) : Option Nat × AppState :=
  match s.rateLimiter with
  | some rl => (rl, s)
  | none =>
    ((get_client env s.rm).1,
      { rm := (get_client env s.rm).2,
        rateLimiter := some (get_client env s.rm).1 })

/-! ### Basic facts about the store model -/

theorem lookup_set_self (cs : List (String × Int)) (k : String) (v : Int) :
    lookupCounter (setCounter cs k v) k = v := by
  induction cs with
  | nil => simp [setCounter, lookupCounter]
  | cons p rest ih =>
    obtain ⟨k₀, v₀⟩ := p
    by_cases h : k₀ = k <;> simp [setCounter, lookupCounter, h, ih]

theorem lookup_set_ne (cs : List (String × Int)) (k k' : String) (v : Int)
    (h : k' ≠ k) :
    lookupCounter (setCounter cs k v) k' = lookupCounter cs k' := by
  induction cs with
  | nil => simp [setCounter, lookupCounter, Ne.symm h]
  | cons p rest ih =>
    obtain ⟨k₀, v₀⟩ := p
    by_cases h0 : k₀ = k <;> by_cases h1 : k₀ = k' <;>
      simp_all [setCounter, lookupCounter, Ne.symm h]

theorem counters_applyExpire (st : RedisState) (k : String) (s : Nat) :
    (applyExpire st k s).counters = st.counters := rfl

theorem lookup_applyIncrBy_self (st : RedisState) (k : String) (a : Int) :
    lookupCounter (applyIncrBy st k a).counters k =
      lookupCounter st.counters k + a := by
  simp [applyIncrBy, lookup_set_self]

theorem lookup_applyIncrBy_ne (st : RedisState) (k k' : String) (a : Int)
    (h : k' ≠ k) :
    lookupCounter (applyIncrBy st k a).counters k' =
      lookupCounter st.counters k' := by
  simp [applyIncrBy, lookup_set_ne _ _ _ _ h]

/-- The minute key and the day key of the same client never collide
(they differ at the character after the common `rate_limit:` prefix). -/
theorem keys_ne (ip d : String) : minuteKey ip ≠ dayKey ip d := by
  intro h
  have hd := congrArg String.data h
  simp only [minuteKey, dayKey, String.data_append] at hd
  have h11 := congrArg (fun l => l[11]?) hd
  simp only [List.append_assoc] at h11
  simp [List.getElem?_append] at h11

/-! ### Shape of one check: results, states, operations, logs -/

theorem dayVerdict_ops (env : CheckEnv) (st : RedisState) (ops : List StoreOp)
    (dc : Int) : (dayVerdict env st ops dc).ops = ops := by
  unfold dayVerdict; split <;> rfl

theorem dayVerdict_state (env : CheckEnv) (st : RedisState) (ops : List StoreOp)
    (dc : Int) : (dayVerdict env st ops dc).state = st := by
  unfold dayVerdict; split <;> rfl

theorem dayVerdict_shape (env : CheckEnv) (st : RedisState) (ops : List StoreOp)
    (dc : Int) :
    (dayVerdict env st ops dc).result = CheckResult.ok true ∨
    (dayVerdict env st ops dc).result = CheckResult.httpErr 429 dayDenyDetail := by
  unfold dayVerdict; split
  · right; rfl
  · left; rfl

theorem dayVerdict_noErrLog (env : CheckEnv) (st : RedisState)
    (ops : List StoreOp) (dc : Int) :
    redisErrorLog ∉ (dayVerdict env st ops dc).logs := by
  unfold dayVerdict; split
  · intro hmem
    simp only [List.mem_singleton] at hmem
    exact absurd hmem (by decide)
  · intro hmem
    simp at hmem

theorem dayVerdict_ok (env : CheckEnv) (st : RedisState) (ops : List StoreOp)
    (dc : Int) (h : dc ≤ (env.chars_per_day : Int)) :
    (dayVerdict env st ops dc).result = CheckResult.ok true := by
  unfold dayVerdict
  rw [if_neg (not_lt.mpr h)]

theorem dayStep_shape (env : CheckEnv) (sched : List Bool) (st1 : RedisState)
    (ops : List StoreOp) (ip : String) (len : Nat) :
    (dayStep env sched st1 ops ip len).result = CheckResult.ok true ∨
    (dayStep env sched st1 ops ip len).result =
      CheckResult.httpErr 429 dayDenyDetail := by
  unfold dayStep
  split
  · split
    · left; rfl
    · exact dayVerdict_shape _ _ _ _
  · exact dayVerdict_shape _ _ _ _

theorem dayStep_err (env : CheckEnv) (sched : List Bool) (st1 : RedisState)
    (ops : List StoreOp) (ip : String) (len : Nat) :
    redisErrorLog ∈ (dayStep env sched st1 ops ip len).logs →
    (dayStep env sched st1 ops ip len).result = CheckResult.ok true := by
  unfold dayStep
  split
  · split
    · intro _; rfl
    · intro hmem; exact absurd hmem (dayVerdict_noErrLog _ _ _ _)
  · intro hmem; exact absurd hmem (dayVerdict_noErrLog _ _ _ _)

theorem dayPhase_shape (env : CheckEnv) (sched : List Bool) (st : RedisState)
    (ops : List StoreOp) (ip : String) (len : Nat) :
    (dayPhase env sched st ops ip len).result = CheckResult.ok true ∨
    (dayPhase env sched st ops ip len).result =
      CheckResult.httpErr 429 dayDenyDetail := by
  unfold dayPhase
  split
  · left; rfl
  · exact dayStep_shape _ _ _ _ _ _

theorem dayPhase_err (env : CheckEnv) (sched : List Bool) (st : RedisState)
    (ops : List StoreOp) (ip : String) (len : Nat) :
    redisErrorLog ∈ (dayPhase env sched st ops ip len).logs →
    (dayPhase env sched st ops ip len).result = CheckResult.ok true := by
  unfold dayPhase
  split
  · intro _; rfl
  · exact dayStep_err _ _ _ _ _ _

theorem minuteVerdict_shape (env : CheckEnv) (sched : List Bool)
    (st : RedisState) (ops : List StoreOp) (ip : String) (c : Int) (len : Nat) :
    (minuteVerdict env sched st ops ip c len).result = CheckResult.ok true ∨
    (minuteVerdict env sched st ops ip c len).result =
      CheckResult.httpErr 429 minuteDenyDetail ∨
    (minuteVerdict env sched st ops ip c len).result =
      CheckResult.httpErr 429 dayDenyDetail := by
  unfold minuteVerdict
  split
  · right; left; rfl
  · rcases dayPhase_shape env sched st ops ip len with h | h
    · left; exact h
    · right; right; exact h

theorem minuteVerdict_err (env : CheckEnv) (sched : List Bool)
    (st : RedisState) (ops : List StoreOp) (ip : String) (c : Int) (len : Nat) :
    redisErrorLog ∈ (minuteVerdict env sched st ops ip c len).logs →
    (minuteVerdict env sched st ops ip c len).result = CheckResult.ok true := by
  unfold minuteVerdict
  split
  · intro hmem
    exact absurd hmem (by simp; decide)
  · exact dayPhase_err _ _ _ _ _ _

theorem minuteStep_shape (env : CheckEnv) (sched : List Bool) (st1 : RedisState)
    (ip : String) (len : Nat) :
    (minuteStep env sched st1 ip len).result = CheckResult.ok true ∨
    (minuteStep env sched st1 ip len).result =
      CheckResult.httpErr 429 minuteDenyDetail ∨
    (minuteStep env sched st1 ip len).result =
      CheckResult.httpErr 429 dayDenyDetail := by
  unfold minuteStep
  split
  · split
    · left; rfl
    · exact minuteVerdict_shape _ _ _ _ _ _ _
  · exact minuteVerdict_shape _ _ _ _ _ _ _

theorem minuteStep_err (env : CheckEnv) (sched : List Bool) (st1 : RedisState)
    (ip : String) (len : Nat) :
    redisErrorLog ∈ (minuteStep env sched st1 ip len).logs →
    (minuteStep env sched st1 ip len).result = CheckResult.ok true := by
  unfold minuteStep
  split
  · split
    · intro _; rfl
    · exact minuteVerdict_err _ _ _ _ _ _ _
  · exact minuteVerdict_err _ _ _ _ _ _ _

theorem check_shape_aux (env : CheckEnv) (sched : List Bool) (st : RedisState)
    (host : String) (len : Nat) :
    (check_rate_limit env sched st host len).result = CheckResult.ok true ∨
    (check_rate_limit env sched st host len).result =
      CheckResult.httpErr 429 minuteDenyDetail ∨
    (check_rate_limit env sched st host len).result =
      CheckResult.httpErr 429 dayDenyDetail := by
  unfold check_rate_limit
  split
  · left; rfl
  · split
    · left; rfl
    · split
      · left; rfl
      · split
        · left; rfl
        · exact minuteStep_shape _ _ _ _ _

theorem check_err_aux (env : CheckEnv) (sched : List Bool) (st : RedisState)
    (host : String) (len : Nat) :
    redisErrorLog ∈ (check_rate_limit env sched st host len).logs →
    (check_rate_limit env sched st host len).result = CheckResult.ok true := by
  unfold check_rate_limit
  split
  · intro _; rfl
  · split
    · intro _; rfl
    · split
      · intro _; rfl
      · split
        · intro _; rfl
        · exact minuteStep_err _ _ _ _ _

/-! ### Exact characterizations of the failure-free paths -/

theorem minuteDeny_ne_dayDeny : minuteDenyDetail ≠ dayDenyDetail := by decide

theorem minuteVerdict_pass (env : CheckEnv) (sched : List Bool) (st : RedisState)
    (ops : List StoreOp) (ip : String) (c : Int) (len : Nat)
    (h : c ≤ (env.requests_per_minute : Int)) :
    minuteVerdict env sched st ops ip c len = dayPhase env sched st ops ip len := by
  unfold minuteVerdict
  rw [if_neg (not_lt.mpr h)]

theorem minuteVerdict_denyEq (env : CheckEnv) (sched : List Bool) (st : RedisState)
    (ops : List StoreOp) (ip : String) (c : Int) (len : Nat) :
    (minuteVerdict env sched st ops ip c len).result =
      CheckResult.httpErr 429 minuteDenyDetail →
    minuteVerdict env sched st ops ip c len =
      ⟨CheckResult.httpErr 429 minuteDenyDetail, st, ops, [minuteWarnLog]⟩ := by
  unfold minuteVerdict
  split
  · intro _; rfl
  · intro h
    rcases dayPhase_shape env sched st ops ip len with h1 | h1 <;> rw [h] at h1 <;>
      exact absurd h1 (by decide)

theorem minuteStep_denyEq (env : CheckEnv) (sched : List Bool) (st1 : RedisState)
    (ip : String) (len : Nat) :
    (minuteStep env sched st1 ip len).result =
      CheckResult.httpErr 429 minuteDenyDetail →
    (minuteStep env sched st1 ip len).state.counters = st1.counters ∧
    ((minuteStep env sched st1 ip len).ops = [StoreOp.incr (minuteKey ip)] ∨
      (minuteStep env sched st1 ip len).ops =
        [StoreOp.incr (minuteKey ip), StoreOp.expire (minuteKey ip) 60]) := by
  unfold minuteStep
  split
  · split
    · intro h; simp at h
    · intro h
      rw [minuteVerdict_denyEq _ _ _ _ _ _ _ h]
      exact ⟨rfl, Or.inr rfl⟩
  · intro h
    rw [minuteVerdict_denyEq _ _ _ _ _ _ _ h]
    exact ⟨rfl, Or.inl rfl⟩

theorem check_eq_minuteStep (env : CheckEnv) (sched : List Bool) (st : RedisState)
    (host : String) (len : Nat)
    (h1 : env.enabled = true) (h2 : env.redisAvailable = true)
    (h3 : is_whitelisted env.whitelist (effectiveClientIp host) = false)
    (h4 : sched.headD false = false) :
    check_rate_limit env sched st host len =
      minuteStep env sched.tail
        (applyIncr st (minuteKey (effectiveClientIp host)))
        (effectiveClientIp host) len := by
  unfold check_rate_limit
  rw [h1, h2, h3, h4]
  simp

theorem check_minute_deny (env : CheckEnv) (st : RedisState) (host : String)
    (len : Nat)
    (h1 : env.enabled = true) (h2 : env.redisAvailable = true)
    (h3 : is_whitelisted env.whitelist (effectiveClientIp host) = false)
    (hm : (env.requests_per_minute : Int) ≤
      lookupCounter st.counters (minuteKey (effectiveClientIp host))) :
    (check_rate_limit env [] st host len).result =
      CheckResult.httpErr 429 minuteDenyDetail := by
  rw [check_eq_minuteStep env [] st host len h1 h2 h3 rfl]
  simp only [List.tail_nil]
  unfold minuteStep
  have hl : lookupCounter
      (applyIncr st (minuteKey (effectiveClientIp host))).counters
      (minuteKey (effectiveClientIp host)) =
      lookupCounter st.counters (minuteKey (effectiveClientIp host)) + 1 := by
    simp [applyIncr, lookup_applyIncrBy_self]
  rw [hl]
  have hgt : lookupCounter st.counters (minuteKey (effectiveClientIp host)) + 1 >
      (env.requests_per_minute : Int) := by omega
  split
  · rw [if_neg (by decide)]
    unfold minuteVerdict
    rw [if_pos hgt]
  · unfold minuteVerdict
    rw [if_pos hgt]

theorem dayStep_counters (env : CheckEnv) (st1 : RedisState) (ops : List StoreOp)
    (ip : String) (len : Nat) :
    (dayStep env [] st1 ops ip len).state.counters = st1.counters := by
  unfold dayStep
  split
  · rw [if_neg (by decide)]
    rw [dayVerdict_state, counters_applyExpire]
  · rw [dayVerdict_state]

theorem dayStep_ok (env : CheckEnv) (st1 : RedisState) (ops : List StoreOp)
    (ip : String) (len : Nat)
    (h : lookupCounter st1.counters (dayKey ip env.today) ≤
      (env.chars_per_day : Int)) :
    (dayStep env [] st1 ops ip len).result = CheckResult.ok true := by
  unfold dayStep
  split
  · rw [if_neg (by decide)]
    exact dayVerdict_ok _ _ _ _ h
  · exact dayVerdict_ok _ _ _ _ h

theorem dayPhase_counters (env : CheckEnv) (st : RedisState) (ops : List StoreOp)
    (ip : String) (len : Nat) :
    (dayPhase env [] st ops ip len).state.counters =
      setCounter st.counters (dayKey ip env.today)
        (lookupCounter st.counters (dayKey ip env.today) + (len : Int)) := by
  unfold dayPhase
  rw [if_neg (by decide)]
  simp only [List.tail_nil]
  rw [dayStep_counters]
  rfl

theorem dayPhase_ok (env : CheckEnv) (st : RedisState) (ops : List StoreOp)
    (ip : String) (len : Nat)
    (h : lookupCounter st.counters (dayKey ip env.today) + (len : Int) ≤
      (env.chars_per_day : Int)) :
    (dayPhase env [] st ops ip len).result = CheckResult.ok true := by
  unfold dayPhase
  rw [if_neg (by decide)]
  simp only [List.tail_nil]
  apply dayStep_ok
  rw [lookup_applyIncrBy_self]
  exact h

theorem minuteStep_ok (env : CheckEnv) (st1 : RedisState) (ip : String) (len : Nat)
    (hm : lookupCounter st1.counters (minuteKey ip) ≤
      (env.requests_per_minute : Int))
    (hd : lookupCounter st1.counters (dayKey ip env.today) + (len : Int) ≤
      (env.chars_per_day : Int)) :
    (minuteStep env [] st1 ip len).result = CheckResult.ok true ∧
    (minuteStep env [] st1 ip len).state.counters =
      setCounter st1.counters (dayKey ip env.today)
        (lookupCounter st1.counters (dayKey ip env.today) + (len : Int)) := by
  unfold minuteStep
  split
  · rw [if_neg (by decide)]
    simp only [List.tail_nil]
    rw [minuteVerdict_pass _ _ _ _ _ _ _ hm]
    constructor
    · apply dayPhase_ok
      rw [counters_applyExpire]
      exact hd
    · rw [dayPhase_counters, counters_applyExpire]
  · rw [minuteVerdict_pass _ _ _ _ _ _ _ hm]
    constructor
    · exact dayPhase_ok _ _ _ _ _ hd
    · rw [dayPhase_counters]

theorem check_ok_step (env : CheckEnv) (st : RedisState) (host : String) (u : Nat)
    (h1 : env.enabled = true) (h2 : env.redisAvailable = true)
    (h3 : is_whitelisted env.whitelist (effectiveClientIp host) = false)
    (hm : lookupCounter st.counters (minuteKey (effectiveClientIp host)) + 1 ≤
      (env.requests_per_minute : Int))
    (hd : lookupCounter st.counters
        (dayKey (effectiveClientIp host) env.today) + (u : Int) ≤
      (env.chars_per_day : Int)) :
    (check_rate_limit env [] st host u).result = CheckResult.ok true ∧
    lookupCounter (check_rate_limit env [] st host u).state.counters
        (minuteKey (effectiveClientIp host)) =
      lookupCounter st.counters (minuteKey (effectiveClientIp host)) + 1 ∧
    lookupCounter (check_rate_limit env [] st host u).state.counters
        (dayKey (effectiveClientIp host) env.today) =
      lookupCounter st.counters (dayKey (effectiveClientIp host) env.today) +
        (u : Int) := by
  rw [check_eq_minuteStep env [] st host u h1 h2 h3 rfl]
  simp only [List.tail_nil]
  have e1 : lookupCounter
      (applyIncr st (minuteKey (effectiveClientIp host))).counters
      (minuteKey (effectiveClientIp host)) =
      lookupCounter st.counters (minuteKey (effectiveClientIp host)) + 1 := by
    simp [applyIncr, lookup_applyIncrBy_self]
  have e2 : lookupCounter
      (applyIncr st (minuteKey (effectiveClientIp host))).counters
      (dayKey (effectiveClientIp host) env.today) =
      lookupCounter st.counters (dayKey (effectiveClientIp host) env.today) := by
    exact lookup_applyIncrBy_ne _ _ _ _
      (Ne.symm (keys_ne (effectiveClientIp host) env.today))
  obtain ⟨hr, hc⟩ := minuteStep_ok env
    (applyIncr st (minuteKey (effectiveClientIp host)))
    (effectiveClientIp host) u (by rw [e1]; exact hm) (by rw [e2]; exact hd)
  refine ⟨hr, ?_, ?_⟩
  · rw [hc, lookup_set_ne _ _ _ _ (keys_ne (effectiveClientIp host) env.today), e1]
  · rw [hc, lookup_set_self, e2]

/-! ### Sequences of failure-free checks -/

theorem runChecks_ok (env : CheckEnv) (host : String) (us : List Nat) :
    ∀ st : RedisState,
      env.enabled = true → env.redisAvailable = true →
      is_whitelisted env.whitelist (effectiveClientIp host) = false →
      lookupCounter st.counters (minuteKey (effectiveClientIp host)) +
        (us.length : Int) ≤ (env.requests_per_minute : Int) →
      lookupCounter st.counters (dayKey (effectiveClientIp host) env.today) +
        (us.sum : Int) ≤ (env.chars_per_day : Int) →
      (runChecks env st host us).1 =
        List.replicate us.length (CheckResult.ok true) ∧
      lookupCounter (runChecks env st host us).2.counters
          (minuteKey (effectiveClientIp host)) =
        lookupCounter st.counters (minuteKey (effectiveClientIp host)) +
          (us.length : Int) ∧
      lookupCounter (runChecks env st host us).2.counters
          (dayKey (effectiveClientIp host) env.today) =
        lookupCounter st.counters (dayKey (effectiveClientIp host) env.today) +
          (us.sum : Int) := by
  induction us with
  | nil =>
    intro st h1 h2 h3 _ _
    refine ⟨by simp [runChecks], by simp [runChecks], by simp [runChecks]⟩
  | cons u rest ih =>
    intro st h1 h2 h3 hm hd
    simp only [List.length_cons, List.sum_cons] at hm hd
    obtain ⟨hr, hcm, hcd⟩ := check_ok_step env st host u h1 h2 h3
      (by omega) (by omega)
    obtain ⟨ihr, ihm, ihd⟩ := ih (check_rate_limit env [] st host u).state h1 h2 h3
      (by rw [hcm]; omega) (by rw [hcd]; omega)
    refine ⟨?_, ?_, ?_⟩
    · simp only [runChecks, hr, ihr, List.length_cons, List.replicate_succ]
    · simp only [runChecks, ihm, hcm, List.length_cons]
      omega
    · simp only [runChecks, ihd, hcd, List.sum_cons]
      omega

/-! ### When the day expiry is set -/

theorem dayPhase_expiry_mem (env : CheckEnv) (st : RedisState)
    (ops : List StoreOp) (ip : String) (len : Nat)
    (hops : StoreOp.expire (dayKey ip env.today) (25 * 3600) ∉ ops) :
    (StoreOp.expire (dayKey ip env.today) (25 * 3600) ∈
        (dayPhase env [] st ops ip len).ops) ↔
      lookupCounter st.counters (dayKey ip env.today) = 0 := by
  unfold dayPhase
  rw [if_neg (by decide)]
  simp only [List.tail_nil]
  unfold dayStep
  rw [lookup_applyIncrBy_self]
  by_cases h0 : lookupCounter st.counters (dayKey ip env.today) + (len : Int) =
    (len : Int)
  · rw [if_pos h0, if_neg (by decide), dayVerdict_ops]
    constructor
    · intro _; omega
    · intro _; simp
  · rw [if_neg h0, dayVerdict_ops]
    simp only [List.mem_append, List.mem_singleton]
    constructor
    · rintro (hmem | heq)
      · exact absurd hmem hops
      · simp at heq
    · intro hd0
      exact absurd (by omega) h0

/-! ### Claim theorems -/

/-- Claim C9: for every input, `check_rate_limit` either returns `True`
or raises an `HTTPException` with status code 429; it never returns
`False`, despite the docstring describing a `False` result for the
store-unavailable case. -/
theorem check_result_shape (env : CheckEnv) (sched : List Bool)
    (st : RedisState) (host : String) (len : Nat) :
    ((check_rate_limit env sched st host len).result = CheckResult.ok true ∨
      ∃ det, (check_rate_limit env sched st host len).result =
        CheckResult.httpErr 429 det) ∧
    (check_rate_limit env sched st host len).result ≠ CheckResult.ok false := by
  obtain h | h | h := check_shape_aux env sched st host len
  · exact ⟨Or.inl h, by rw [h]; simp⟩
  · exact ⟨Or.inr ⟨_, h⟩, by rw [h]; simp⟩
  · exact ⟨Or.inr ⟨_, h⟩, by rw [h]; simp⟩

/-- Claim C6: every store-layer error — an unavailable connection at the
start of the call, or an increment/expire operation failing mid-check —
is absorbed into an `Admit` (`return True`) plus a log entry, and the
only raised fault is the structured 429 quota rejection. -/
theorem store_errors_fail_open (env : CheckEnv) (sched : List Bool)
    (st : RedisState) (host : String) (len : Nat) :
    (env.enabled = true → env.redisAvailable = false →
      (check_rate_limit env sched st host len).result = CheckResult.ok true ∧
      redisUnavailableLog ∈ (check_rate_limit env sched st host len).logs) ∧
    (redisErrorLog ∈ (check_rate_limit env sched st host len).logs →
      (check_rate_limit env sched st host len).result = CheckResult.ok true) ∧
    ((check_rate_limit env sched st host len).result = CheckResult.ok true ∨
      (check_rate_limit env sched st host len).result =
        CheckResult.httpErr 429 minuteDenyDetail ∨
      (check_rate_limit env sched st host len).result =
        CheckResult.httpErr 429 dayDenyDetail) := by
  refine ⟨?_, check_err_aux env sched st host len,
    check_shape_aux env sched st host len⟩
  intro he hr
  unfold check_rate_limit
  rw [he, hr]
  simp

theorem store_errors_fail_open_witness :
    (check_rate_limit ⟨true, false, 5, 100, [], "20261012"⟩ [] emptyState
      "3.3.3.3" 1).result = CheckResult.ok true ∧
    (check_rate_limit ⟨true, true, 5, 100, [], "20261012"⟩ [true] emptyState
      "3.3.3.3" 1).result = CheckResult.ok true :=
  ⟨((store_errors_fail_open ⟨true, false, 5, 100, [], "20261012"⟩ []
      emptyState "3.3.3.3" 1).1 rfl rfl).1,
    (store_errors_fail_open ⟨true, true, 5, 100, [], "20261012"⟩ [true]
      emptyState "3.3.3.3" 1).2.1 (by decide)⟩

/-- Claim C7: for every identity in the whitelist and every unit count,
`check_rate_limit` returns `True` and performs zero store operations,
leaving the store untouched. -/
theorem whitelist_bypass (env : CheckEnv) (sched : List Bool)
    (st : RedisState) (host : String) (len : Nat)
    (h : is_whitelisted env.whitelist (effectiveClientIp host) = true) :
    (check_rate_limit env sched st host len).result = CheckResult.ok true ∧
    (check_rate_limit env sched st host len).ops = [] ∧
    (check_rate_limit env sched st host len).state = st := by
  unfold check_rate_limit
  rw [h]
  split
  · exact ⟨rfl, rfl, rfl⟩
  · split
    · exact ⟨rfl, rfl, rfl⟩
    · exact ⟨rfl, rfl, rfl⟩

theorem whitelist_bypass_witness :
    (check_rate_limit ⟨true, true, 1, 1, ["4.4.4.4"], "20261012"⟩ []
      emptyState "4.4.4.4" 99).result = CheckResult.ok true ∧
    (check_rate_limit ⟨true, true, 1, 1, ["4.4.4.4"], "20261012"⟩ []
      emptyState "4.4.4.4" 99).ops = [] :=
  ⟨(whitelist_bypass ⟨true, true, 1, 1, ["4.4.4.4"], "20261012"⟩ []
      emptyState "4.4.4.4" 99 (by decide)).1,
    (whitelist_bypass ⟨true, true, 1, 1, ["4.4.4.4"], "20261012"⟩ []
      emptyState "4.4.4.4" 99 (by decide)).2.1⟩

/-- Claim C5: a call denied by the minute check performs no `INCRBY` at
all and leaves every counter other than the caller's minute counter —
in particular the caller's day counter — unchanged. -/
theorem minute_deny_preserves_day_counter (env : CheckEnv) (sched : List Bool)
    (st : RedisState) (host : String) (len : Nat)
    (h : (check_rate_limit env sched st host len).result =
      CheckResult.httpErr 429 minuteDenyDetail) :
    (∀ k a, StoreOp.incrby k a ∉ (check_rate_limit env sched st host len).ops) ∧
    (∀ k, k ≠ minuteKey (effectiveClientIp host) →
      lookupCounter (check_rate_limit env sched st host len).state.counters k =
        lookupCounter st.counters k) := by
  revert h
  unfold check_rate_limit
  split
  · intro h; simp at h
  · split
    · intro h; simp at h
    · split
      · intro h; simp at h
      · split
        · intro h; simp at h
        · intro h
          obtain ⟨hc, hops⟩ := minuteStep_denyEq _ _ _ _ _ h
          constructor
          · intro k a hmem
            rcases hops with h1 | h1 <;> rw [h1] at hmem <;> simp at hmem
          · intro k hk
            rw [hc]
            simpa [applyIncr] using
              lookup_applyIncrBy_ne st (minuteKey (effectiveClientIp host)) k 1 hk

theorem minute_deny_preserves_day_counter_witness :
    lookupCounter (check_rate_limit ⟨true, true, 0, 10, [], "20261012"⟩ []
        emptyState "2.2.2.2" 5).state.counters
      (dayKey "2.2.2.2" "20261012") =
      lookupCounter emptyState.counters (dayKey "2.2.2.2" "20261012") :=
  (minute_deny_preserves_day_counter ⟨true, true, 0, 10, [], "20261012"⟩ []
      emptyState "2.2.2.2" 5 (by decide)).2
    (dayKey "2.2.2.2" "20261012") (by decide)

/-- Claim C1 counterexample: the denial for a minute-rate breach and the
denial for a day-budget breach carry identical structured fields (status
429, `error` and `type`); only the human-readable `message` differs, so
the two kinds of denial are not distinguishable by a machine-readable
structured field. -/
theorem deny_reason_counterexample :
    (check_rate_limit ⟨true, true, 1, 0, [], "20261012"⟩ [] emptyState
      "1.1.1.1" 1).result = CheckResult.httpErr 429 dayDenyDetail ∧
    (check_rate_limit ⟨true, true, 1, 0, [], "20261012"⟩ []
      (check_rate_limit ⟨true, true, 1, 0, [], "20261012"⟩ [] emptyState
        "1.1.1.1" 1).state "1.1.1.1" 1).result =
      CheckResult.httpErr 429 minuteDenyDetail ∧
    dayDenyDetail.error = minuteDenyDetail.error ∧
    dayDenyDetail.type = minuteDenyDetail.type ∧
    dayDenyDetail.message ≠ minuteDenyDetail.message := by
  refine ⟨by decide, by decide, rfl, rfl, by decide⟩

/-- Claim C1 (amended): every denial carries status 429 and the same
structured fields `error = "rate_limit_exceeded"` and
`type = "rate_limit_error"`; the denial payload is either the minute or
the day variant, and the two variants differ only in their
human-readable `message`. -/
theorem deny_reason_structured_fields (env : CheckEnv) (sched : List Bool)
    (st : RedisState) (host : String) (len : Nat) (s : Nat) (det : HTTPDetail)
    (h : (check_rate_limit env sched st host len).result =
      CheckResult.httpErr s det) :
    s = 429 ∧ det.error = "rate_limit_exceeded" ∧
    det.type = "rate_limit_error" ∧
    (det = minuteDenyDetail ∨ det = dayDenyDetail) ∧
    minuteDenyDetail.message ≠ dayDenyDetail.message := by
  obtain h1 | h1 | h1 := check_shape_aux env sched st host len <;> rw [h] at h1
  · simp at h1
  · rw [CheckResult.httpErr.injEq] at h1
    obtain ⟨hs, hd⟩ := h1
    subst hs; subst hd
    exact ⟨rfl, rfl, rfl, Or.inl rfl, by decide⟩
  · rw [CheckResult.httpErr.injEq] at h1
    obtain ⟨hs, hd⟩ := h1
    subst hs; subst hd
    exact ⟨rfl, rfl, rfl, Or.inr rfl, by decide⟩

theorem deny_reason_structured_fields_witness :
    (429 : Nat) = 429 ∧ dayDenyDetail.error = "rate_limit_exceeded" ∧
    dayDenyDetail.type = "rate_limit_error" ∧
    (dayDenyDetail = minuteDenyDetail ∨ dayDenyDetail = dayDenyDetail) ∧
    minuteDenyDetail.message ≠ dayDenyDetail.message :=
  deny_reason_structured_fields ⟨true, true, 1, 0, [], "20261012"⟩ []
    emptyState "1.1.1.1" 1 429 dayDenyDetail (by decide)

/-- Claim C3 counterexample: a first zero-unit call creates the day
counter and sets the 25-hour expiry; a second zero-unit call of the same
identity on the same date does not create the counter (it already
exists) yet sets the 25-hour expiry again, so the expiry is not set only
by the counter-creating request. -/
theorem day_expiry_reset_counterexample :
    hasKey emptyState.counters (dayKey "1.2.3.4" "20261012") = false ∧
    StoreOp.expire (dayKey "1.2.3.4" "20261012") (25 * 3600) ∈
      (check_rate_limit ⟨true, true, 10, 100, [], "20261012"⟩ [] emptyState
        "1.2.3.4" 0).ops ∧
    hasKey (check_rate_limit ⟨true, true, 10, 100, [], "20261012"⟩ []
        emptyState "1.2.3.4" 0).state.counters
      (dayKey "1.2.3.4" "20261012") = true ∧
    StoreOp.expire (dayKey "1.2.3.4" "20261012") (25 * 3600) ∈
      (check_rate_limit ⟨true, true, 10, 100, [], "20261012"⟩ []
        (check_rate_limit ⟨true, true, 10, 100, [], "20261012"⟩ [] emptyState
          "1.2.3.4" 0).state "1.2.3.4" 0).ops := by
  refine ⟨rfl, by decide, by decide, by decide⟩

/-- Claim C3 (amended): in a failure-free check that passes the minute
threshold, the 25-hour expiry on the day key is set if and only if the
day counter's value before the add is zero (an absent counter counts as
zero) — equivalently iff the post-add value equals this request's units.
For requests with positive units this coincides with "this add created
the counter", but a zero-unit request arriving while the day total is
zero sets the expiry again even though the counter already exists. -/
theorem day_expiry_iff_zero_count (env : CheckEnv) (st : RedisState)
    (host : String) (len : Nat)
    (h1 : env.enabled = true) (h2 : env.redisAvailable = true)
    (h3 : is_whitelisted env.whitelist (effectiveClientIp host) = false)
    (h4 : lookupCounter st.counters (minuteKey (effectiveClientIp host)) + 1 ≤
      (env.requests_per_minute : Int)) :
    (StoreOp.expire (dayKey (effectiveClientIp host) env.today) (25 * 3600) ∈
        (check_rate_limit env [] st host len).ops) ↔
      lookupCounter st.counters (dayKey (effectiveClientIp host) env.today) =
        0 := by
  rw [check_eq_minuteStep env [] st host len h1 h2 h3 rfl]
  simp only [List.tail_nil]
  have e1 : lookupCounter
      (applyIncr st (minuteKey (effectiveClientIp host))).counters
      (minuteKey (effectiveClientIp host)) =
      lookupCounter st.counters (minuteKey (effectiveClientIp host)) + 1 := by
    simp [applyIncr, lookup_applyIncrBy_self]
  have e2 : lookupCounter
      (applyIncr st (minuteKey (effectiveClientIp host))).counters
      (dayKey (effectiveClientIp host) env.today) =
      lookupCounter st.counters (dayKey (effectiveClientIp host) env.today) :=
    lookup_applyIncrBy_ne _ _ _ _
      (Ne.symm (keys_ne (effectiveClientIp host) env.today))
  have hops1 : StoreOp.expire (dayKey (effectiveClientIp host) env.today)
      (25 * 3600) ∉ [StoreOp.incr (minuteKey (effectiveClientIp host))] := by
    intro hmem; simp at hmem
  have hops2 : StoreOp.expire (dayKey (effectiveClientIp host) env.today)
      (25 * 3600) ∉
      [StoreOp.incr (minuteKey (effectiveClientIp host)),
        StoreOp.expire (minuteKey (effectiveClientIp host)) 60] := by
    intro hmem; simp at hmem
  unfold minuteStep
  rw [e1]
  split
  · rw [if_neg (by decide)]
    simp only [List.tail_nil]
    rw [minuteVerdict_pass _ _ _ _ _ _ _ h4,
      dayPhase_expiry_mem _ _ _ _ _ hops2, counters_applyExpire, e2]
  · rw [minuteVerdict_pass _ _ _ _ _ _ _ h4,
      dayPhase_expiry_mem _ _ _ _ _ hops1, e2]

theorem day_expiry_iff_zero_count_witness :
    StoreOp.expire (dayKey (effectiveClientIp "1.2.3.4") "20261012")
      (25 * 3600) ∈
      (check_rate_limit ⟨true, true, 10, 100, [], "20261012"⟩ [] emptyState
        "1.2.3.4" 7).ops :=
  (day_expiry_iff_zero_count ⟨true, true, 10, 100, [], "20261012"⟩ emptyState
    "1.2.3.4" 7 rfl rfl (by decide) (by decide)).mpr rfl

/-- Claim C4 counterexample: with `requestsPerMinute = 2`, the very first
call of a fresh non-whitelisted identity — one of the "first N calls" —
is denied (by the day check) when its unit count exceeds the daily
budget, so not every one of the first N calls returns Admit. -/
theorem first_call_day_deny_counterexample :
    (1 : Nat) ≤ 2 ∧
    (check_rate_limit ⟨true, true, 2, 10, [], "20261012"⟩ [] emptyState
      "9.9.9.9" 11).result = CheckResult.httpErr 429 dayDenyDetail ∧
    (check_rate_limit ⟨true, true, 2, 10, [], "20261012"⟩ [] emptyState
      "9.9.9.9" 11).result ≠ CheckResult.ok true := by
  refine ⟨by decide, by decide, by decide⟩

/-- Claim C4 (amended): for a fresh non-whitelisted identity with rate
limiting enabled and the store available, given `requestsPerMinute = N`,
provided the units of the first N calls keep the day total within the
daily budget, each of the first N calls in the same window returns Admit
(`True`), and the (N+1)th call is denied with the minute-check (requests)
rejection. -/
theorem minute_limit_first_n (env : CheckEnv) (host : String) (us : List Nat)
    (u' : Nat)
    (h1 : env.enabled = true) (h2 : env.redisAvailable = true)
    (h3 : is_whitelisted env.whitelist (effectiveClientIp host) = false)
    (h4 : us.length = env.requests_per_minute)
    (h5 : (us.sum : Int) ≤ (env.chars_per_day : Int)) :
    (runChecks env emptyState host us).1 =
      List.replicate env.requests_per_minute (CheckResult.ok true) ∧
    (check_rate_limit env [] (runChecks env emptyState host us).2 host
      u').result = CheckResult.httpErr 429 minuteDenyDetail := by
  have h0m : lookupCounter emptyState.counters
      (minuteKey (effectiveClientIp host)) = 0 := rfl
  have h0d : lookupCounter emptyState.counters
      (dayKey (effectiveClientIp host) env.today) = 0 := rfl
  obtain ⟨hr, hm, hd⟩ := runChecks_ok env host us emptyState h1 h2 h3
    (by rw [h0m, h4]; omega) (by rw [h0d]; omega)
  constructor
  · rw [hr, h4]
  · apply check_minute_deny env _ host u' h1 h2 h3
    rw [hm, h0m, h4]
    omega

theorem minute_limit_first_n_witness :
    (runChecks ⟨true, true, 2, 100, [], "20261012"⟩ emptyState "7.7.7.7"
      [10, 20]).1 = List.replicate 2 (CheckResult.ok true) ∧
    (check_rate_limit ⟨true, true, 2, 100, [], "20261012"⟩ []
      (runChecks ⟨true, true, 2, 100, [], "20261012"⟩ emptyState "7.7.7.7"
        [10, 20]).2 "7.7.7.7" 5).result =
      CheckResult.httpErr 429 minuteDenyDetail :=
  minute_limit_first_n ⟨true, true, 2, 100, [], "20261012"⟩ "7.7.7.7"
    [10, 20] 5 rfl rfl (by decide) rfl (by decide)

/-- Claim C10: whitelist membership is exact string equality against
config entries stripped of surrounding whitespace at construction (with
entries that are empty after stripping dropped), while the client
address is compared untrimmed: a whitespace-padded config entry still
matches its stripped address, but a whitespace-padded client address
never matches. -/
theorem whitelist_strip_exact :
    (∀ raw ip, is_whitelisted (mkWhitelist raw) ip = true ↔
      ∃ e, e ∈ raw ∧ pyStrip e = ip ∧ ip ≠ "") ∧
    is_whitelisted (mkWhitelist [" 1.2.3.4 "]) "1.2.3.4" = true ∧
    is_whitelisted (mkWhitelist ["1.2.3.4"]) " 1.2.3.4 " = false := by
  refine ⟨?_, by decide, by decide⟩
  intro raw ip
  unfold is_whitelisted mkWhitelist
  simp only [List.contains_eq_any_beq, List.any_eq_true, List.mem_map,
    List.mem_filter, bne_iff_ne, ne_eq, beq_iff_eq]
  constructor
  · rintro ⟨x, ⟨e, ⟨he, hne⟩, hstrip⟩, hx⟩
    subst hx
    subst hstrip
    exact ⟨e, he, rfl, hne⟩
  · rintro ⟨e, he, hstrip, hne⟩
    subst hstrip
    exact ⟨pyStrip e, ⟨e, ⟨he, hne⟩, rfl⟩, rfl⟩

/-- Claim C8: `get_client` is idempotent: after a call that returned a
handle, a second call without an intervening `close` returns the same
handle and the identical manager state — in particular it performs no
new liveness probe and no new connection construction. -/
theorem get_client_idempotent (env : ConnEnv) (s : RMState) (h : Nat)
    (hs : (get_client env s).1 = some h) :
    get_client env (get_client env s).2 = (some h, (get_client env s).2) ∧
    (get_client env (get_client env s).2).2.pings =
      (get_client env s).2.pings ∧
    (get_client env (get_client env s).2).2.constructions =
      (get_client env s).2.constructions := by
  obtain ⟨c, a, co, p⟩ := s
  cases c with
  | some h' =>
    have he : h' = h := by simpa [get_client] using hs
    subst he
    exact ⟨rfl, rfl, rfl⟩
  | none =>
    by_cases hb : env.attemptResults.getD a false
    · have hred : get_client env ⟨none, a, co, p⟩ =
          (some a, ⟨some a, a + 1, co + 1, p + 1⟩) := by
        simp only [get_client]
        rw [if_pos hb]
      rw [hred] at hs ⊢
      have he : a = h := by simpa using hs
      subst he
      exact ⟨rfl, rfl, rfl⟩
    · have hred : get_client env ⟨none, a, co, p⟩ =
          (none, ⟨none, a + 1, co + 1, p + 1⟩) := by
        simp only [get_client]
        rw [if_neg hb]
      rw [hred] at hs
      simp at hs

theorem get_client_idempotent_witness :
    get_client ⟨[true]⟩ (get_client ⟨[true]⟩ ⟨none, 0, 0, 0⟩).2 =
      (some 0, (get_client ⟨[true]⟩ ⟨none, 0, 0, 0⟩).2) :=
  (get_client_idempotent ⟨[true]⟩ ⟨none, 0, 0, 0⟩ 0 (by decide)).1

/-- Claim C2 counterexample: the store is down for the first acquisition
attempt and up for the next.  The first decision request creates the
limiter singleton with no store handle; the second decision request gets
the cached limiter back, still with no store handle and with the
manager's state untouched (no new acquisition attempt), even though a
fresh `get_client` call at that point would succeed.  Hence a call to
check does not retry acquiring the store connection. -/
theorem get_rate_limiter_no_retry_counterexample :
    (get_rate_limiter ⟨[false, true]⟩
      (get_rate_limiter ⟨[false, true]⟩ ⟨⟨none, 0, 0, 0⟩, none⟩).2).1 =
      none ∧
    (get_rate_limiter ⟨[false, true]⟩
        (get_rate_limiter ⟨[false, true]⟩ ⟨⟨none, 0, 0, 0⟩, none⟩).2).2 =
      (get_rate_limiter ⟨[false, true]⟩ ⟨⟨none, 0, 0, 0⟩, none⟩).2 ∧
    (get_client ⟨[false, true]⟩
      (get_rate_limiter ⟨[false, true]⟩ ⟨⟨none, 0, 0, 0⟩, none⟩).2.rm).1 =
      some 1 := by
  refine ⟨by decide, by decide, by decide⟩

/-- Claim C2 (amended): the store connection is acquired only while the
module-global limiter is unset; once `_rate_limiter` is cached — even
with an absent store handle — every later `get_rate_limiter` call
returns the cached limiter unchanged and performs no new acquisition
attempt, so a store that becomes reachable after the limiter was created
is not picked up by subsequent checks. -/
theorem get_rate_limiter_cached (env : ConnEnv) (s : AppState)
    (rl : Option Nat) (h : s.rateLimiter = some rl) :
    get_rate_limiter env s = (rl, s) := by
  cases s with
  | mk rm lim =>
    cases lim with
    | none => simp at h
    | some rl' =>
      have he : rl' = rl := by simpa using h
      subst he
      rfl

theorem get_rate_limiter_cached_witness :
    get_rate_limiter ⟨[false, true]⟩ ⟨⟨none, 1, 1, 1⟩, some none⟩ =
      (none, ⟨⟨none, 1, 1, 1⟩, some none⟩) :=
  get_rate_limiter_cached ⟨[false, true]⟩ ⟨⟨none, 1, 1, 1⟩, some none⟩
    none rfl
